import Mathlib

/-!
# Image resizer handler: request resolution and cache population

A shallow embedding of `app/index.js`: the request handler that derives a cache key from
the request path and the resize option string, validates the fit action, probes the object
store, and on a miss fetches the original, checks its media type, resizes it and writes the
variant back.

JavaScript strings are embedded as `String`; the three separators the handler splits on
(`/`, `_`, `x`) are single characters.  The object store is a finite-map-like function from
keys to stored objects; the image pipeline and the outcome of a store write are parameters
(`Env`).  Every run returns the response, the store afterwards and the ordered list of
calls made to the store and to the image pipeline.
-/

namespace ImageResizer

/-! ## JavaScript string and array helpers -/

/-- Split a character list at every occurrence of `sep`, as `String.prototype.split` does for
a one-character separator: the result is never empty, and an empty input gives one empty
piece. -/
def splitChars (sep : Char) : List Char → List (List Char)
  | [] => [[]]
  | c :: cs =>
    if c = sep then [] :: splitChars sep cs
    else
      match splitChars sep cs with
      | [] => [[c]]
      | p :: ps => (c :: p) :: ps

/-- The call `s.split(sep)` for a one-character separator. -/
def jsSplit (sep : Char) (s : String) : List String :=
  (splitChars sep s.data).map String.mk

/-- The call `parts.join(sep)`: an empty array gives the empty string. -/
def jsJoin (sep : String) : List String → String
  | [] => ""
  | [a] => a
  | a :: b :: rest => a ++ sep ++ jsJoin sep (b :: rest)

/-- Search used by `indexOf`, counting positions from `i`; `-1` when the value is absent. -/
def jsIndexOfFrom (a : String) : List String → Nat → Int
  | [], _ => -1
  | x :: xs, i => if x = a then (i : Int) else jsIndexOfFrom a xs (i + 1)

/-- The call `xs.indexOf(a)`. -/
def jsIndexOf (xs : List String) (a : String) : Int :=
  jsIndexOfFrom a xs 0

/-- The call `xs.includes(a)`. -/
def jsIncludes (xs : List String) (a : String) : Bool :=
  xs.contains a

/-! ## Base64 text of a byte buffer (`buffer.toString("base64")`) -/

/-- One byte of a buffer. -/
abbrev Byte := Fin 256

/-- The standard base64 alphabet. -/
def base64Alphabet : List Char :=
  "ABCDEFGHIJKLMNOPQRSTUVWXYZabcdefghijklmnopqrstuvwxyz0123456789+/".data

/-- The base64 digit for a six-bit value. -/
def base64Digit (n : Nat) : Char :=
  base64Alphabet.getD n 'A'

/-- Base64 digits of a byte list, three bytes to four digits, padded with `=`. -/
def base64Chars : List Byte → List Char
  | [] => []
  | [a] => [base64Digit (a.val / 4), base64Digit (a.val % 4 * 16), '=', '=']
  | [a, b] =>
    [base64Digit (a.val / 4), base64Digit (a.val % 4 * 16 + b.val / 16),
      base64Digit (b.val % 16 * 4), '=']
  | a :: b :: c :: rest =>
    base64Digit (a.val / 4) :: base64Digit (a.val % 4 * 16 + b.val / 16) ::
      base64Digit (b.val % 16 * 4 + c.val / 64) :: base64Digit (c.val % 64) ::
        base64Chars rest

/-- The call `Buffer.from(body).toString("base64")`. -/
def toBase64 (body : List Byte) : String :=
  String.mk (base64Chars body)

/-! ## Constants of the module -/

def FIT_OPTIONS : List String := ["cover", "contain", "fill", "inside", "outside"]

/-- The value `RESPONSE_TYPES.FILE`. -/
def RESPONSE_TYPES_FILE : String := "file"

/-- The value `RESPONSE_TYPES.JSON`. -/
def RESPONSE_TYPES_JSON : String := "json"

def ALLOWED_MIME_TYPES : List String :=
  ["image/jpeg", "image/gif", "image/png", "image/svg+xml", "image/tiff", "image/bmp"]

def UNSUPPORTED_SHARP_MIME_TYPES : List String := ["image/bmp"]

def DEFAULT_CACHE_HEADER : String := "public, max-age=86400"

/-! ## Data model -/

/-- An object of the bucket as the handler sees it: the bytes, the content type, and the
cache-control metadata it was written with (absent on objects the handler did not write). -/
structure S3Object where
  Body : List Byte
  ContentType : String
  CacheControl : Option String
deriving DecidableEq

/-- The bucket: which object, if any, each key holds. -/
abbrev Store := String → Option S3Object

/-- The bucket after `putObject` of `obj` at `key`. -/
def Store.put (store : Store) (key : String) (obj : S3Object) : Store :=
  fun k => if k = key then some obj else store k

/-- The function `getResource`: the object at the key, or `false` (here `none`) when
`getObject` reports an error; it never throws. -/
def getResource (store : Store) (resourcePath : String) : Option S3Object :=
  store resourcePath

/-- One axis of the `resize` call: `null` for the token `auto`, otherwise the number
`parseInt(token)`, kept as the token it is computed from (`none` for `undefined`). -/
inductive Dim where
  | null
  | parseInt (token : Option String)
deriving DecidableEq

/-- An object of string-valued properties in enumeration order (`pathParameters`,
`queryStringParameters`). -/
abbrev Params := List (String × String)

/-- The invocation event; either map can be missing. -/
structure Event where
  pathParameters : Option Params
  queryStringParameters : Option Params
deriving DecidableEq

/-- The headers the handler sets; `none` for a header it leaves out. -/
structure Headers where
  contentType : String
  cacheControl : Option String
  age : Option Nat
deriving DecidableEq

/-- The value the handler returns; `isBase64Encoded` is `false` where the source omits it. -/
structure Response where
  statusCode : Nat
  body : String
  isBase64Encoded : Bool
  headers : Headers
deriving DecidableEq

/-- A call the handler makes to the bucket or to the image pipeline. -/
inductive Effect where
  | getObject (key : String)
  | sharp (body : List Byte) (width height : Dim) (fit : String)
  | putObject (key : String) (obj : S3Object)
deriving DecidableEq

/-- The collaborators of the handler that can fail: the image pipeline
(`Sharp(..).resize(..).rotate().toBuffer()`, `none` when it throws) and whether a
`putObject` call is accepted (`false` when it throws). -/
structure Env where
  sharp : List Byte → Dim → Dim → String → Option (List Byte)
  putAccepted : String → S3Object → Bool

/-- What one run of the handler leaves behind. -/
structure Result where
  response : Response
  store : Store
  trace : List Effect

/-! ## Key derivation and option parsing -/

/-- The expression `pathParameters.proxy || pathParameters[Object.keys(pathParameters)[0]]`;
`none` stands for `undefined`. -/
def originalImageKey (pathParameters : Params) : Option String :=
  match pathParameters.lookup "proxy" with
  | some v => if v ≠ "" then some v else pathParameters.head?.map Prod.snd
  | none => pathParameters.head?.map Prod.snd

/-- The array `originalImageKey.split("/")`. -/
def originalKeyParts (key : String) : List String :=
  jsSplit '/' key

/-- The value popped off `originalKeyParts`: its last element. -/
def originalFilename (key : String) : String :=
  (originalKeyParts key).getLastD ""

/-- What is left of `originalKeyParts` after the pop, joined with `/`. -/
def originalSubfolder (key : String) : String :=
  jsJoin "/" (originalKeyParts key).dropLast

/-- The expression `queryStringParameters?.options || ""`. -/
def resizeOptions (queryStringParameters : Option Params) : String :=
  match queryStringParameters with
  | none => ""
  | some q => (q.lookup "options").getD ""

/-- The array `resizeOptions.split("_")`. -/
def sizeAndAction (options : String) : List String :=
  jsSplit '_' options

/-- The array `sizeAndAction[0].split("x")`. -/
def sizes (options : String) : List String :=
  jsSplit 'x' ((sizeAndAction options).headD "")

/-- The fit action: `sizeAndAction[1]` when there is one, else `"cover"`. -/
def action (options : String) : String :=
  if (sizeAndAction options).length > 1 then (sizeAndAction options).getD 1 "" else "cover"

/-- The folder of the variant: the non-empty ones of subfolder and option string, joined
with `/` (the identifier is spelled as in the source). -/
def resizedSubfloder (key options : String) : String :=
  jsJoin "/" ([originalSubfolder key, options].filter (fun i => i ≠ ""))

/-- The key of the variant. -/
def resizedKey (key options : String) : String :=
  resizedSubfloder key options ++ "/" ++ originalFilename key

/-- The expression `queryStringParameters ? queryStringParameters.response : "json"`;
`none` stands for `undefined`. -/
def responseType (queryStringParameters : Option Params) : Option String :=
  match queryStringParameters with
  | none => some RESPONSE_TYPES_JSON
  | some q => q.lookup "response"

/-- The key of the first `getResource` call. -/
def probeKey (key options : String) : String :=
  if options ≠ "" then resizedKey key options else key

/-- The `width` passed to `resize`. -/
def width (options : String) : Dim :=
  if (sizes options).head? = some "auto" then Dim.null else Dim.parseInt (sizes options).head?

/-- The `height` passed to `resize`. -/
def height (options : String) : Dim :=
  if (sizes options).get? 1 = some "auto" then Dim.null
  else Dim.parseInt ((sizes options).get? 1)

/-- The `fit` passed to `resize`: `action || "cover"`. -/
def fit (options : String) : String :=
  if action options ≠ "" then action options else "cover"

/-! ## The handler -/

/-- The response of the `catch` block. -/
def internalServerError : Response :=
  { statusCode := 500
    body := "Internal server error"
    isBase64Encoded := false
    headers := { contentType := "text/plain", cacheControl := none, age := none } }

/-- The response for a fit action outside `FIT_OPTIONS`. -/
def unknownFitResponse (action : String) : Response :=
  { statusCode := 400
    body := "Unknown Fit action parameter \"" ++ action ++ "\"\n" ++
      "Available Fit actions: " ++ jsJoin ", " FIT_OPTIONS ++ "."
    isBase64Encoded := false
    headers := { contentType := "text/plain", cacheControl := none, age := none } }

/-- The response for a stored object found by the first `getResource` call. -/
def existingImageResponse (responseType : Option String) (existingImage : S3Object) :
    Response :=
  if responseType = some RESPONSE_TYPES_FILE then
    { statusCode := 200
      body := toBase64 existingImage.Body
      isBase64Encoded := true
      headers :=
        { contentType := existingImage.ContentType
          cacheControl := some DEFAULT_CACHE_HEADER
          age := none } }
  else
    { statusCode := 200
      body := "\x7b\"resized\":false,\"exists\":true\x7d"
      isBase64Encoded := false
      headers :=
        { contentType := "application/json"
          cacheControl := some "private, nocache"
          age := none } }

/-- The response when the original is not in the bucket. -/
def notFoundResponse (originalImageKey : String) : Response :=
  { statusCode := 404
    body := "Resource not found. Could not find resource: " ++ originalImageKey ++ "."
    isBase64Encoded := false
    headers :=
      { contentType := "text/plain", cacheControl := some "private, nocache", age := none } }

/-- The response for an original whose content type is not in `ALLOWED_MIME_TYPES`. -/
def unsupportedMimeResponse (originalImageMime : String) : Response :=
  { statusCode := 400
    body := "Unsupported MIME type: " ++ originalImageMime ++ ". Supported types: " ++
      jsJoin ", " ALLOWED_MIME_TYPES
    isBase64Encoded := false
    headers :=
      { contentType := "text/plain", cacheControl := some "private, nocache", age := none } }

/-- The response that hands back the original of a type the image pipeline cannot read. -/
def passthroughResponse (originalImage : S3Object) : Response :=
  { statusCode := 200
    body := toBase64 originalImage.Body
    isBase64Encoded := true
    headers :=
      { contentType := originalImage.ContentType
        cacheControl := some DEFAULT_CACHE_HEADER
        age := some 0 } }

/-- The response after a variant was generated and stored. -/
def generatedResponse (responseType : Option String) (originalImageMime : String)
    (result : List Byte) : Response :=
  if responseType = some RESPONSE_TYPES_FILE then
    { statusCode := 200
      body := toBase64 result
      isBase64Encoded := true
      headers :=
        { contentType := originalImageMime
          cacheControl := some DEFAULT_CACHE_HEADER
          age := some 0 } }
  else
    { statusCode := 200
      body := "\x7b\"resized\":true,\"exists\":false\x7d"
      isBase64Encoded := false
      headers :=
        { contentType := "application/json"
          cacheControl := some "private, nocache"
          age := none } }

/-- The object `putObject` is called with. -/
def variantObject (originalImageMime : String) (result : List Byte) : S3Object :=
  { Body := result, ContentType := originalImageMime, CacheControl := some DEFAULT_CACHE_HEADER }

/-- The body of the handler from the original fetch on, once the first `getResource` call
has found nothing. -/
def generate (env : Env) (store : Store) (key options : String)
    (responseType : Option String) : Result :=
  let probed := [Effect.getObject (probeKey key options), Effect.getObject key]
  match getResource store key with
  | none => ⟨notFoundResponse key, store, probed⟩
  | some originalImage =>
    if ¬ jsIncludes ALLOWED_MIME_TYPES originalImage.ContentType then
      ⟨unsupportedMimeResponse originalImage.ContentType, store, probed⟩
    else if jsIncludes UNSUPPORTED_SHARP_MIME_TYPES originalImage.ContentType then
      ⟨passthroughResponse originalImage, store, probed⟩
    else
      let resize := Effect.sharp originalImage.Body (width options) (height options)
        (fit options)
      match env.sharp originalImage.Body (width options) (height options) (fit options) with
      | none => ⟨internalServerError, store, probed ++ [resize]⟩
      | some result =>
        let obj := variantObject originalImage.ContentType result
        let written := probed ++ [resize, Effect.putObject (resizedKey key options) obj]
        if env.putAccepted (resizedKey key options) obj then
          ⟨generatedResponse responseType originalImage.ContentType result,
            store.put (resizedKey key options) obj, written⟩
        else ⟨internalServerError, store, written⟩

/-- The body of the handler once `originalImageKey` is a string. -/
def handleKey (env : Env) (store : Store) (key : String)
    (queryStringParameters : Option Params) : Result :=
  let options := resizeOptions queryStringParameters
  if action options ≠ "" ∧ jsIndexOf FIT_OPTIONS (action options) = -1 then
    ⟨unknownFitResponse (action options), store, []⟩
  else
    match getResource store (probeKey key options) with
    | some existingImage =>
      ⟨existingImageResponse (responseType queryStringParameters) existingImage, store,
        [Effect.getObject (probeKey key options)]⟩
    | none => generate env store key options (responseType queryStringParameters)

/-- The resolved request path of an event, `none` when reading it throws (no
`pathParameters`, or no value to split). -/
def requestKey (event : Event) : Option String :=
  event.pathParameters.bind originalImageKey

/-- The exported `handler`. -/
def handler (env : Env) (store : Store) (event : Event) : Result :=
  match requestKey event with
  | none => ⟨internalServerError, store, []⟩
  | some key => handleKey env store key event.queryStringParameters

/-! ## The key derivation in the words of the specification -/

/-- The path split at its last `/` into (subfolder, filename): the filename is what follows
the last `/`, the subfolder what precedes it; a path with no `/` has an empty subfolder. -/
def splitAtLastSlash (path : String) : String × String :=
  (String.mk ((path.data.reverse.dropWhile (fun c => c ≠ '/')).drop 1).reverse,
    String.mk (path.data.reverse.takeWhile (fun c => c ≠ '/')).reverse)

/-- The derived key as the specification words it:
`join(filter-non-empty([subfolder, rawOptionString]), "/") + "/" + filename`. -/
def derivedKeySpec (path options : String) : String :=
  jsJoin "/" ([(splitAtLastSlash path).1, options].filter (fun i => i ≠ "")) ++ "/" ++
    (splitAtLastSlash path).2

/-! ## Sample data for the concrete checks -/

/-- A pipeline that keeps the first byte of its input and a store that accepts every write. -/
def sampleEnv : Env :=
  { sharp := fun body _ _ _ => some (body.take 1), putAccepted := fun _ _ => true }

/-- A bucket holding a jpeg at `photos/cat.jpg`, a bmp at `cat.bmp`, a text page at
`notes/page.html` and a stored variant at `photos/50x50/dog.png`. -/
def sampleStore : Store := fun k =>
  if k = "photos/cat.jpg" then some ⟨[1, 2, 3, 4], "image/jpeg", none⟩
  else if k = "cat.bmp" then some ⟨[66, 77, 0], "image/bmp", none⟩
  else if k = "notes/page.html" then some ⟨[60, 112, 62], "text/html", none⟩
  else if k = "photos/50x50/dog.png" then some ⟨[9], "text/html", none⟩
  else none

/-- The event of a proxy request for `path` with the given `options` and `response`. -/
def sampleEvent (path options response : String) : Event :=
  { pathParameters := some [("proxy", path)]
    queryStringParameters := some [("options", options), ("response", response)] }

/-! ## Definitions used to state and prove the properties -/

/-- The pieces joined back with the separator between them. -/
def joinChars (sep : Char) : List (List Char) → List Char
  | [] => []
  | [a] => a
  | a :: b :: rest => a ++ sep :: joinChars sep (b :: rest)

/-- The nine ways a run of the handler can end, each with the conditions on the event, the
store and the collaborators under which it is taken and the result it yields. -/
inductive Outcome (env : Env) (store : Store) (event : Event) : Result → Prop
  | noPath :
    requestKey event = none →
    Outcome env store event ⟨internalServerError, store, []⟩
  | unknownFit (path : String) :
    requestKey event = some path →
    action (resizeOptions event.queryStringParameters) ≠ "" →
    action (resizeOptions event.queryStringParameters) ∉ FIT_OPTIONS →
    Outcome env store event
      ⟨unknownFitResponse (action (resizeOptions event.queryStringParameters)), store, []⟩
  | cacheHit (path : String) (existing : S3Object) :
    requestKey event = some path →
    (action (resizeOptions event.queryStringParameters) = "" ∨
      action (resizeOptions event.queryStringParameters) ∈ FIT_OPTIONS) →
    store (probeKey path (resizeOptions event.queryStringParameters)) = some existing →
    Outcome env store event
      ⟨existingImageResponse (responseType event.queryStringParameters) existing, store,
        [Effect.getObject (probeKey path (resizeOptions event.queryStringParameters))]⟩
  | notFound (path : String) :
    requestKey event = some path →
    (action (resizeOptions event.queryStringParameters) = "" ∨
      action (resizeOptions event.queryStringParameters) ∈ FIT_OPTIONS) →
    store (probeKey path (resizeOptions event.queryStringParameters)) = none →
    store path = none →
    Outcome env store event
      ⟨notFoundResponse path, store,
        [Effect.getObject (probeKey path (resizeOptions event.queryStringParameters)),
          Effect.getObject path]⟩
  | unsupportedMime (path : String) (orig : S3Object) :
    requestKey event = some path →
    (action (resizeOptions event.queryStringParameters) = "" ∨
      action (resizeOptions event.queryStringParameters) ∈ FIT_OPTIONS) →
    store (probeKey path (resizeOptions event.queryStringParameters)) = none →
    store path = some orig →
    orig.ContentType ∉ ALLOWED_MIME_TYPES →
    Outcome env store event
      ⟨unsupportedMimeResponse orig.ContentType, store,
        [Effect.getObject (probeKey path (resizeOptions event.queryStringParameters)),
          Effect.getObject path]⟩
  | passthrough (path : String) (orig : S3Object) :
    requestKey event = some path →
    (action (resizeOptions event.queryStringParameters) = "" ∨
      action (resizeOptions event.queryStringParameters) ∈ FIT_OPTIONS) →
    store (probeKey path (resizeOptions event.queryStringParameters)) = none →
    store path = some orig →
    orig.ContentType ∈ ALLOWED_MIME_TYPES →
    orig.ContentType ∈ UNSUPPORTED_SHARP_MIME_TYPES →
    Outcome env store event
      ⟨passthroughResponse orig, store,
        [Effect.getObject (probeKey path (resizeOptions event.queryStringParameters)),
          Effect.getObject path]⟩
  | sharpThrows (path : String) (orig : S3Object) :
    requestKey event = some path →
    (action (resizeOptions event.queryStringParameters) = "" ∨
      action (resizeOptions event.queryStringParameters) ∈ FIT_OPTIONS) →
    store (probeKey path (resizeOptions event.queryStringParameters)) = none →
    store path = some orig →
    orig.ContentType ∈ ALLOWED_MIME_TYPES →
    orig.ContentType ∉ UNSUPPORTED_SHARP_MIME_TYPES →
    env.sharp orig.Body (width (resizeOptions event.queryStringParameters))
      (height (resizeOptions event.queryStringParameters))
      (fit (resizeOptions event.queryStringParameters)) = none →
    Outcome env store event
      ⟨internalServerError, store,
        [Effect.getObject (probeKey path (resizeOptions event.queryStringParameters)),
          Effect.getObject path,
          Effect.sharp orig.Body (width (resizeOptions event.queryStringParameters))
            (height (resizeOptions event.queryStringParameters))
            (fit (resizeOptions event.queryStringParameters))]⟩
  | putThrows (path : String) (orig : S3Object) (result : List Byte) :
    requestKey event = some path →
    (action (resizeOptions event.queryStringParameters) = "" ∨
      action (resizeOptions event.queryStringParameters) ∈ FIT_OPTIONS) →
    store (probeKey path (resizeOptions event.queryStringParameters)) = none →
    store path = some orig →
    orig.ContentType ∈ ALLOWED_MIME_TYPES →
    orig.ContentType ∉ UNSUPPORTED_SHARP_MIME_TYPES →
    env.sharp orig.Body (width (resizeOptions event.queryStringParameters))
      (height (resizeOptions event.queryStringParameters))
      (fit (resizeOptions event.queryStringParameters)) = some result →
    env.putAccepted (resizedKey path (resizeOptions event.queryStringParameters))
      (variantObject orig.ContentType result) = false →
    Outcome env store event
      ⟨internalServerError, store,
        [Effect.getObject (probeKey path (resizeOptions event.queryStringParameters)),
          Effect.getObject path,
          Effect.sharp orig.Body (width (resizeOptions event.queryStringParameters))
            (height (resizeOptions event.queryStringParameters))
            (fit (resizeOptions event.queryStringParameters)),
          Effect.putObject (resizedKey path (resizeOptions event.queryStringParameters))
            (variantObject orig.ContentType result)]⟩
  | generated (path : String) (orig : S3Object) (result : List Byte) :
    requestKey event = some path →
    (action (resizeOptions event.queryStringParameters) = "" ∨
      action (resizeOptions event.queryStringParameters) ∈ FIT_OPTIONS) →
    store (probeKey path (resizeOptions event.queryStringParameters)) = none →
    store path = some orig →
    orig.ContentType ∈ ALLOWED_MIME_TYPES →
    orig.ContentType ∉ UNSUPPORTED_SHARP_MIME_TYPES →
    env.sharp orig.Body (width (resizeOptions event.queryStringParameters))
      (height (resizeOptions event.queryStringParameters))
      (fit (resizeOptions event.queryStringParameters)) = some result →
    env.putAccepted (resizedKey path (resizeOptions event.queryStringParameters))
      (variantObject orig.ContentType result) = true →
    Outcome env store event
      ⟨generatedResponse (responseType event.queryStringParameters) orig.ContentType result,
        store.put (resizedKey path (resizeOptions event.queryStringParameters))
          (variantObject orig.ContentType result),
        [Effect.getObject (probeKey path (resizeOptions event.queryStringParameters)),
          Effect.getObject path,
          Effect.sharp orig.Body (width (resizeOptions event.queryStringParameters))
            (height (resizeOptions event.queryStringParameters))
            (fit (resizeOptions event.queryStringParameters)),
          Effect.putObject (resizedKey path (resizeOptions event.queryStringParameters))
            (variantObject orig.ContentType result)]⟩

/-! ## Lemmas on the helpers -/

theorem splitChars_ne_nil (sep : Char) (s : List Char) : splitChars sep s ≠ [] := by
  cases s with
  | nil => simp [splitChars]
  | cons c cs =>
    unfold splitChars
    split
    · simp
    · split <;> simp

theorem joinChars_splitChars (sep : Char) (s : List Char) :
    joinChars sep (splitChars sep s) = s := by
  induction s with
  | nil => simp [splitChars, joinChars]
  | cons c cs ih =>
    unfold splitChars
    split
    · next h =>
      subst h
      cases hs : splitChars c cs with
      | nil => exact absurd hs (splitChars_ne_nil _ _)
      | cons p ps => rw [hs] at ih; simp [joinChars, ih]
    · cases hs : splitChars sep cs with
      | nil => exact absurd hs (splitChars_ne_nil _ _)
      | cons p ps =>
        rw [hs] at ih
        cases ps with
        | nil => simpa [joinChars] using ih
        | cons q qs => simp only [joinChars] at ih ⊢; simp [ih]

theorem not_mem_of_mem_splitChars (sep : Char) (s : List Char) :
    ∀ p ∈ splitChars sep s, sep ∉ p := by
  induction s with
  | nil => simp [splitChars]
  | cons c cs ih =>
    unfold splitChars
    split
    · intro p hp
      rcases List.mem_cons.1 hp with rfl | hp
      · simp
      · exact ih p hp
    · next hc =>
      cases hs : splitChars sep cs with
      | nil => exact absurd hs (splitChars_ne_nil _ _)
      | cons q qs =>
        rw [hs] at ih
        intro p hp
        rcases List.mem_cons.1 hp with rfl | hp
        · intro hmem
          rcases List.mem_cons.1 hmem with h | h
          · exact hc h.symm
          · exact ih q (List.mem_cons_self _ _) h
        · exact ih p (List.mem_cons_of_mem _ hp)

theorem joinChars_concat (sep : Char) (init : List (List Char)) (last : List Char) :
    joinChars sep (init ++ [last]) =
      if init = [] then last else joinChars sep init ++ sep :: last := by
  induction init with
  | nil => simp [joinChars]
  | cons a rest ih =>
    cases rest with
    | nil => simp [joinChars]
    | cons b rest =>
      simp only [List.cons_append, joinChars] at ih ⊢
      simp [ih]

theorem jsJoin_map_mk (sep : Char) (parts : List (List Char)) :
    jsJoin (String.mk [sep]) (parts.map String.mk) = String.mk (joinChars sep parts) := by
  induction parts with
  | nil => rfl
  | cons a rest ih =>
    cases rest with
    | nil => rfl
    | cons b rest =>
      simp only [List.map_cons, jsJoin, joinChars] at ih ⊢
      rw [ih]
      apply String.ext
      simp

/-- How the source splits a path: the pieces before the last one joined with the separator,
and the last piece, rebuild the path, and the last piece has no separator. -/
theorem split_last_decomposition (sep : Char) (s : List Char) :
    ∃ init last, splitChars sep s = init ++ [last] ∧ sep ∉ last ∧
      ((init = [] ∧ s = last) ∨ (init ≠ [] ∧ s = joinChars sep init ++ sep :: last)) := by
  have hne := splitChars_ne_nil sep s
  refine ⟨(splitChars sep s).dropLast, (splitChars sep s).getLast hne,
    (List.dropLast_append_getLast hne).symm, ?_, ?_⟩
  · exact not_mem_of_mem_splitChars sep s _ (List.getLast_mem hne)
  · have hj := joinChars_splitChars sep s
    rw [← List.dropLast_append_getLast hne, joinChars_concat] at hj
    by_cases h : (splitChars sep s).dropLast = []
    · left; rw [if_pos h] at hj; exact ⟨h, hj.symm⟩
    · right; rw [if_neg h] at hj; exact ⟨h, hj.symm⟩

theorem takeWhile_reverse_of_not_mem (sep : Char) (s : List Char) (h : sep ∉ s) :
    (s.reverse.takeWhile (fun c => c ≠ sep)).reverse = s ∧
      ((s.reverse.dropWhile (fun c => c ≠ sep)).drop 1).reverse = [] := by
  have hall : ∀ x ∈ s.reverse, (fun c => decide (c ≠ sep)) x = true := by
    intro x hx
    have : x ≠ sep := fun e => h (e ▸ List.mem_reverse.1 hx)
    simpa using this
  constructor
  · rw [List.takeWhile_eq_self_iff.2 hall, List.reverse_reverse]
  · rw [List.dropWhile_eq_nil_iff.2 hall]; rfl

theorem takeWhile_reverse_append (sep : Char) (a b : List Char) (h : sep ∉ b) :
    ((a ++ sep :: b).reverse.takeWhile (fun c => c ≠ sep)).reverse = b ∧
      (((a ++ sep :: b).reverse.dropWhile (fun c => c ≠ sep)).drop 1).reverse = a := by
  have hall : ∀ x ∈ b.reverse, (fun c => decide (c ≠ sep)) x = true := by
    intro x hx
    have : x ≠ sep := fun e => h (e ▸ List.mem_reverse.1 hx)
    simpa using this
  have hrev : (a ++ sep :: b).reverse = b.reverse ++ sep :: a.reverse := by simp
  rw [hrev, List.takeWhile_append_of_pos hall, List.dropWhile_append_of_pos hall]
  simp

theorem source_split_eq_spec (path : String) :
    originalSubfolder path = (splitAtLastSlash path).1 ∧
      originalFilename path = (splitAtLastSlash path).2 := by
  obtain ⟨init, last, hsplit, hlast, hcase⟩ := split_last_decomposition '/' path.data
  have hsub : originalSubfolder path = String.mk (joinChars '/' init) := by
    unfold originalSubfolder originalKeyParts jsSplit
    rw [hsplit, ← List.map_dropLast, List.dropLast_concat]
    exact jsJoin_map_mk '/' init
  have hfile : originalFilename path = String.mk last := by
    unfold originalFilename originalKeyParts jsSplit
    rw [hsplit, List.map_append, List.map_singleton, List.getLastD_concat]
  rw [hsub, hfile]
  unfold splitAtLastSlash
  rcases hcase with ⟨hnil, hs⟩ | ⟨_, hs⟩
  · subst hnil
    rw [hs]
    obtain ⟨h1, h2⟩ := takeWhile_reverse_of_not_mem '/' last hlast
    exact ⟨by rw [h2]; rfl, by rw [h1]⟩
  · rw [hs]
    obtain ⟨h1, h2⟩ := takeWhile_reverse_append '/' (joinChars '/' init) last hlast
    exact ⟨by rw [h2], by rw [h1]⟩

theorem resizedKey_eq_derivedKeySpec (path options : String) :
    resizedKey path options = derivedKeySpec path options := by
  unfold resizedKey resizedSubfloder derivedKeySpec
  rw [(source_split_eq_spec path).1, (source_split_eq_spec path).2]

/-! ## Lemmas on the handler -/

theorem jsIndexOfFrom_eq_neg_one_iff (a : String) (xs : List String) (i : Nat) :
    jsIndexOfFrom a xs i = -1 ↔ a ∉ xs := by
  induction xs generalizing i with
  | nil => simp [jsIndexOfFrom]
  | cons x xs ih =>
    unfold jsIndexOfFrom
    by_cases h : x = a
    · subst h
      simp only [if_true, List.mem_cons, true_or, not_true_eq_false, iff_false]
      omega
    · rw [if_neg h, ih]
      simp [List.mem_cons, Ne.symm h]

theorem jsIndexOf_eq_neg_one_iff (xs : List String) (a : String) :
    jsIndexOf xs a = -1 ↔ a ∉ xs :=
  jsIndexOfFrom_eq_neg_one_iff a xs 0

theorem jsIncludes_iff (xs : List String) (a : String) : jsIncludes xs a = true ↔ a ∈ xs := by
  simp [jsIncludes]

theorem handler_of_requestKey (env : Env) (store : Store) (event : Event) (path : String)
    (hp : requestKey event = some path) :
    handler env store event = handleKey env store path event.queryStringParameters := by
  simp [handler, hp]

theorem handleKey_rejected (env : Env) (store : Store) (path : String) (q : Option Params)
    (hne : action (resizeOptions q) ≠ "") (hfit : action (resizeOptions q) ∉ FIT_OPTIONS) :
    handleKey env store path q = ⟨unknownFitResponse (action (resizeOptions q)), store, []⟩ := by
  unfold handleKey
  simp only []
  rw [if_pos ⟨hne, (jsIndexOf_eq_neg_one_iff _ _).2 hfit⟩]

theorem handleKey_valid (env : Env) (store : Store) (path : String) (q : Option Params)
    (hv : action (resizeOptions q) = "" ∨ action (resizeOptions q) ∈ FIT_OPTIONS) :
    handleKey env store path q =
      match getResource store (probeKey path (resizeOptions q)) with
      | some existingImage =>
        ⟨existingImageResponse (responseType q) existingImage, store,
          [Effect.getObject (probeKey path (resizeOptions q))]⟩
      | none => generate env store path (resizeOptions q) (responseType q) := by
  unfold handleKey
  simp only []
  rw [if_neg]
  rintro ⟨hne, hidx⟩
  rcases hv with h | h
  · exact hne h
  · exact (jsIndexOf_eq_neg_one_iff _ _).1 hidx h

theorem handleKey_hit (env : Env) (store : Store) (path : String) (q : Option Params)
    (existing : S3Object)
    (hv : action (resizeOptions q) = "" ∨ action (resizeOptions q) ∈ FIT_OPTIONS)
    (hhit : store (probeKey path (resizeOptions q)) = some existing) :
    handleKey env store path q =
      ⟨existingImageResponse (responseType q) existing, store,
        [Effect.getObject (probeKey path (resizeOptions q))]⟩ := by
  rw [handleKey_valid env store path q hv]
  simp [getResource, hhit]

theorem handleKey_miss (env : Env) (store : Store) (path : String) (q : Option Params)
    (hv : action (resizeOptions q) = "" ∨ action (resizeOptions q) ∈ FIT_OPTIONS)
    (hmiss : store (probeKey path (resizeOptions q)) = none) :
    handleKey env store path q = generate env store path (resizeOptions q) (responseType q) := by
  rw [handleKey_valid env store path q hv]
  simp [getResource, hmiss]

theorem jsJoin_FIT_OPTIONS :
    jsJoin ", " FIT_OPTIONS = "cover, contain, fill, inside, outside" := by decide

theorem jsJoin_ALLOWED_MIME_TYPES :
    jsJoin ", " ALLOWED_MIME_TYPES =
      "image/jpeg, image/gif, image/png, image/svg+xml, image/tiff, image/bmp" := by decide

theorem generate_notFound (env : Env) (store : Store) (path options : String)
    (rt : Option String) (h : store path = none) :
    generate env store path options rt =
      ⟨notFoundResponse path, store,
        [Effect.getObject (probeKey path options), Effect.getObject path]⟩ := by
  simp [generate, getResource, h]

theorem generate_unsupportedMime (env : Env) (store : Store) (path options : String)
    (rt : Option String) (orig : S3Object) (h : store path = some orig)
    (hct : orig.ContentType ∉ ALLOWED_MIME_TYPES) :
    generate env store path options rt =
      ⟨unsupportedMimeResponse orig.ContentType, store,
        [Effect.getObject (probeKey path options), Effect.getObject path]⟩ := by
  have hinc : ¬ jsIncludes ALLOWED_MIME_TYPES orig.ContentType = true :=
    fun hc => hct ((jsIncludes_iff _ _).1 hc)
  simp only [generate, getResource, h]
  rw [if_pos hinc]

theorem generate_passthrough (env : Env) (store : Store) (path options : String)
    (rt : Option String) (orig : S3Object) (h : store path = some orig)
    (hct : orig.ContentType ∈ ALLOWED_MIME_TYPES)
    (hun : orig.ContentType ∈ UNSUPPORTED_SHARP_MIME_TYPES) :
    generate env store path options rt =
      ⟨passthroughResponse orig, store,
        [Effect.getObject (probeKey path options), Effect.getObject path]⟩ := by
  have hinc : ¬ ¬ jsIncludes ALLOWED_MIME_TYPES orig.ContentType = true :=
    fun hc => hc ((jsIncludes_iff _ _).2 hct)
  simp only [generate, getResource, h]
  rw [if_neg hinc, if_pos ((jsIncludes_iff _ _).2 hun)]

theorem generate_transform (env : Env) (store : Store) (path options : String)
    (rt : Option String) (orig : S3Object) (h : store path = some orig)
    (hct : orig.ContentType ∈ ALLOWED_MIME_TYPES)
    (hun : orig.ContentType ∉ UNSUPPORTED_SHARP_MIME_TYPES) :
    generate env store path options rt =
      match env.sharp orig.Body (width options) (height options) (fit options) with
      | none =>
        ⟨internalServerError, store,
          [Effect.getObject (probeKey path options), Effect.getObject path,
            Effect.sharp orig.Body (width options) (height options) (fit options)]⟩
      | some result =>
        if env.putAccepted (resizedKey path options) (variantObject orig.ContentType result) then
          ⟨generatedResponse rt orig.ContentType result,
            store.put (resizedKey path options) (variantObject orig.ContentType result),
            [Effect.getObject (probeKey path options), Effect.getObject path,
              Effect.sharp orig.Body (width options) (height options) (fit options),
              Effect.putObject (resizedKey path options)
                (variantObject orig.ContentType result)]⟩
        else
          ⟨internalServerError, store,
            [Effect.getObject (probeKey path options), Effect.getObject path,
              Effect.sharp orig.Body (width options) (height options) (fit options),
              Effect.putObject (resizedKey path options)
                (variantObject orig.ContentType result)]⟩ := by
  have hinc : ¬ ¬ jsIncludes ALLOWED_MIME_TYPES orig.ContentType = true :=
    fun hc => hc ((jsIncludes_iff _ _).2 hct)
  have hnun : ¬ jsIncludes UNSUPPORTED_SHARP_MIME_TYPES orig.ContentType = true :=
    fun hc => hun ((jsIncludes_iff _ _).1 hc)
  simp only [generate, getResource, h]
  rw [if_neg hinc, if_neg hnun]
  cases env.sharp orig.Body (width options) (height options) (fit options) with
  | none => rfl
  | some result => simp

/-- Every run of the handler ends in one of the nine outcomes. -/
theorem handler_outcome (env : Env) (store : Store) (event : Event) :
    Outcome env store event (handler env store event) := by
  cases hp : requestKey event with
  | none =>
    have : handler env store event = ⟨internalServerError, store, []⟩ := by simp [handler, hp]
    rw [this]
    exact Outcome.noPath hp
  | some path =>
    rw [handler_of_requestKey env store event path hp]
    by_cases hv : action (resizeOptions event.queryStringParameters) = "" ∨
        action (resizeOptions event.queryStringParameters) ∈ FIT_OPTIONS
    · cases hprobe : store (probeKey path (resizeOptions event.queryStringParameters)) with
      | some existing =>
        rw [handleKey_hit env store path _ existing hv hprobe]
        exact Outcome.cacheHit path existing hp hv hprobe
      | none =>
        rw [handleKey_miss env store path _ hv hprobe]
        cases horig : store path with
        | none =>
          rw [generate_notFound env store path _ _ horig]
          exact Outcome.notFound path hp hv hprobe horig
        | some orig =>
          by_cases hct : orig.ContentType ∈ ALLOWED_MIME_TYPES
          · by_cases hun : orig.ContentType ∈ UNSUPPORTED_SHARP_MIME_TYPES
            · rw [generate_passthrough env store path _ _ orig horig hct hun]
              exact Outcome.passthrough path orig hp hv hprobe horig hct hun
            · rw [generate_transform env store path _ _ orig horig hct hun]
              cases hs : env.sharp orig.Body (width (resizeOptions event.queryStringParameters))
                  (height (resizeOptions event.queryStringParameters))
                  (fit (resizeOptions event.queryStringParameters)) with
              | none => exact Outcome.sharpThrows path orig hp hv hprobe horig hct hun hs
              | some result =>
                by_cases hput : env.putAccepted
                    (resizedKey path (resizeOptions event.queryStringParameters))
                    (variantObject orig.ContentType result) = true
                · simp only [hs]
                  rw [if_pos hput]
                  exact Outcome.generated path orig result hp hv hprobe horig hct hun hs hput
                · simp only [hs]
                  rw [if_neg hput]
                  exact Outcome.putThrows path orig result hp hv hprobe horig hct hun hs
                    (by simpa using hput)
          · rw [generate_unsupportedMime env store path _ _ orig horig hct]
            exact Outcome.unsupportedMime path orig hp hv hprobe horig hct
    · have hne : action (resizeOptions event.queryStringParameters) ≠ "" := fun h => hv (Or.inl h)
      have hfit : action (resizeOptions event.queryStringParameters) ∉ FIT_OPTIONS :=
        fun h => hv (Or.inr h)
      rw [handleKey_rejected env store path _ hne hfit]
      exact Outcome.unknownFit path hp hne hfit

theorem existingImageResponse_statusCode (rt : Option String) (existing : S3Object) :
    (existingImageResponse rt existing).statusCode = 200 := by
  unfold existingImageResponse; split <;> rfl

theorem generatedResponse_statusCode (rt : Option String) (mime : String) (result : List Byte) :
    (generatedResponse rt mime result).statusCode = 200 := by
  unfold generatedResponse; split <;> rfl

theorem probeKey_of_ne_empty (path options : String) (h : options ≠ "") :
    probeKey path options = resizedKey path options := by
  simp [probeKey, h]

theorem Store.put_ne_imp_eq (store : Store) (key : String) (obj : S3Object) (k : String)
    (h : store.put key obj k ≠ store k) : k = key := by
  by_contra hk
  exact h (by simp [Store.put, hk])

theorem resizedKey_empty_options (path : String) :
    ('/' ∈ path.data → resizedKey path "" = path) ∧
      ('/' ∉ path.data → resizedKey path "" = "/" ++ path) := by
  obtain ⟨init, last, hsplit, hlast, hcase⟩ := split_last_decomposition '/' path.data
  have hsub : originalSubfolder path = String.mk (joinChars '/' init) := by
    unfold originalSubfolder originalKeyParts jsSplit
    rw [hsplit, ← List.map_dropLast, List.dropLast_concat]
    exact jsJoin_map_mk '/' init
  have hfile : originalFilename path = String.mk last := by
    unfold originalFilename originalKeyParts jsSplit
    rw [hsplit, List.map_append, List.map_singleton, List.getLastD_concat]
  have hkey : resizedKey path "" = String.mk (joinChars '/' init ++ '/' :: last) := by
    unfold resizedKey resizedSubfloder
    rw [hsub, hfile]
    apply String.ext
    by_cases hj : joinChars '/' init = []
    · simp [hj, jsJoin]
    · have : String.mk (joinChars '/' init) ≠ "" := by
        intro he
        exact hj (congrArg String.data he)
      simp [this, jsJoin]
  rw [hkey]
  rcases hcase with ⟨hnil, hs⟩ | ⟨_, hs⟩
  · subst hnil
    constructor
    · intro hmem
      rw [hs] at hmem
      exact absurd hmem hlast
    · intro _
      apply String.ext
      simp [hs, joinChars]
  · constructor
    · intro _
      apply String.ext
      simp [hs]
    · intro hnot
      exfalso
      apply hnot
      rw [hs]
      simp

/-! ## Properties of the handler -/

/-- C2 fails as stated: the option string `100x100_` has the empty fit action, which is none
of the five fit modes, yet the request is not rejected: it is resized with fit `cover` and
answered 200. -/
theorem C2_counterexample_empty_fit_action :
    action "100x100_" = "" ∧ action "100x100_" ∉ FIT_OPTIONS ∧
      (handler sampleEnv sampleStore (sampleEvent "photos/cat.jpg" "100x100_" "json")).response.statusCode
        = 200 ∧
      (handler sampleEnv sampleStore (sampleEvent "photos/cat.jpg" "100x100_" "json")).trace =
        [Effect.getObject "photos/100x100_/cat.jpg", Effect.getObject "photos/cat.jpg",
          Effect.sharp [1, 2, 3, 4] (Dim.parseInt (some "100")) (Dim.parseInt (some "100")) "cover",
          Effect.putObject "photos/100x100_/cat.jpg"
            ⟨[1], "image/jpeg", some "public, max-age=86400"⟩] := by
  decide

/-- C2, amended: for every path, store and option string whose fit action is a non-empty
string that is none of cover, contain, fill, inside, outside, the handler returns status 400
with Content-Type text/plain and a body that carries the offending value and the list of the
five valid modes. -/
theorem C2_unknown_fit_rejected (env : Env) (store : Store) (event : Event)
    (path options : String)
    (hp : requestKey event = some path)
    (ho : resizeOptions event.queryStringParameters = options)
    (hne : action options ≠ "")
    (hfit : action options ∉ FIT_OPTIONS) :
    (handler env store event).response =
      { statusCode := 400
        body := "Unknown Fit action parameter \"" ++ action options ++
          "\"\nAvailable Fit actions: cover, contain, fill, inside, outside."
        isBase64Encoded := false
        headers := { contentType := "text/plain", cacheControl := none, age := none } } := by
  subst ho
  rw [handler_of_requestKey env store event path hp, handleKey_rejected env store path _ hne hfit]
  simp only [unknownFitResponse, jsJoin_FIT_OPTIONS]
  congr 1
  apply String.ext
  simp

theorem C2_unknown_fit_rejected_witness :
    requestKey (sampleEvent "photos/cat.jpg" "100x100_zoom" "file") = some "photos/cat.jpg" ∧
      resizeOptions (sampleEvent "photos/cat.jpg" "100x100_zoom" "file").queryStringParameters
        = "100x100_zoom" ∧
      action "100x100_zoom" = "zoom" ∧
      (handler sampleEnv sampleStore (sampleEvent "photos/cat.jpg" "100x100_zoom" "file")).response =
        { statusCode := 400
          body := "Unknown Fit action parameter \"" ++ action "100x100_zoom" ++
            "\"\nAvailable Fit actions: cover, contain, fill, inside, outside."
          isBase64Encoded := false
          headers := { contentType := "text/plain", cacheControl := none, age := none } } :=
  ⟨by decide, by decide, by decide,
    C2_unknown_fit_rejected sampleEnv sampleStore (sampleEvent "photos/cat.jpg" "100x100_zoom" "file")
      "photos/cat.jpg" "100x100_zoom" (by decide) (by decide) (by decide) (by decide)⟩

/-- C9: for every path and every option string whose fit action is a non-empty string outside
the five fit modes, the handler returns the same response whatever the store (and whatever
the pipeline), that response has status 400 (so never 404, also when the original key does
not exist), no call is made to the store or the pipeline, and the store is left as it was. -/
theorem C9_fit_validation_before_store_access (env₁ env₂ : Env) (store₁ store₂ : Store)
    (event : Event) (path options : String)
    (hp : requestKey event = some path)
    (ho : resizeOptions event.queryStringParameters = options)
    (hne : action options ≠ "")
    (hfit : action options ∉ FIT_OPTIONS) :
    (handler env₁ store₁ event).response = (handler env₂ store₂ event).response ∧
      (handler env₁ store₁ event).response.statusCode = 400 ∧
      (handler env₁ store₁ event).trace = [] ∧
      (handler env₁ store₁ event).store = store₁ := by
  subst ho
  rw [handler_of_requestKey env₁ store₁ event path hp,
    handler_of_requestKey env₂ store₂ event path hp,
    handleKey_rejected env₁ store₁ path _ hne hfit,
    handleKey_rejected env₂ store₂ path _ hne hfit]
  exact ⟨rfl, rfl, rfl, rfl⟩

theorem C9_fit_validation_before_store_access_witness :
    requestKey (sampleEvent "photos/none.jpg" "100x100_zoom" "json") = some "photos/none.jpg" ∧
      resizeOptions (sampleEvent "photos/none.jpg" "100x100_zoom" "json").queryStringParameters
        = "100x100_zoom" ∧
      action "100x100_zoom" ≠ "" ∧ action "100x100_zoom" ∉ FIT_OPTIONS ∧
      sampleStore "photos/none.jpg" = none ∧
      ((handler sampleEnv sampleStore (sampleEvent "photos/none.jpg" "100x100_zoom" "json")).response
          = (handler sampleEnv (fun _ => none)
              (sampleEvent "photos/none.jpg" "100x100_zoom" "json")).response ∧
        (handler sampleEnv sampleStore
          (sampleEvent "photos/none.jpg" "100x100_zoom" "json")).response.statusCode = 400 ∧
        (handler sampleEnv sampleStore (sampleEvent "photos/none.jpg" "100x100_zoom" "json")).trace
          = [] ∧
        (handler sampleEnv sampleStore (sampleEvent "photos/none.jpg" "100x100_zoom" "json")).store
          = sampleStore) :=
  ⟨by decide, by decide, by decide, by decide, by decide,
    C9_fit_validation_before_store_access sampleEnv sampleEnv sampleStore (fun _ => none)
      (sampleEvent "photos/none.jpg" "100x100_zoom" "json") "photos/none.jpg" "100x100_zoom"
      (by decide) (by decide) (by decide) (by decide)⟩

/-- C4: for every request that passes fit validation, if the probe key (the derived key when
the option string is non-empty, else the original key) holds an object, whatever its content
type, the handler returns 200, its only call is the probe itself (no pipeline call, no store
write) and the store is unchanged; when the response mode is `file` the body is the base64
text of the stored bytes with Content-Type the stored content type, Cache-Control
`public, max-age=86400` and no Age header; in any other mode, an absent one included, the
body is the descriptor with resized false and exists true, with Content-Type
application/json. -/
theorem C4_cache_hit_serves_stored_blob (env : Env) (store : Store) (event : Event)
    (path options : String) (existing : S3Object)
    (hp : requestKey event = some path)
    (ho : resizeOptions event.queryStringParameters = options)
    (hv : action options = "" ∨ action options ∈ FIT_OPTIONS)
    (hhit : store (if options ≠ "" then resizedKey path options else path) = some existing) :
    (handler env store event).response.statusCode = 200 ∧
      (handler env store event).trace =
        [Effect.getObject (if options ≠ "" then resizedKey path options else path)] ∧
      (handler env store event).store = store ∧
      (responseType event.queryStringParameters = some "file" →
        (handler env store event).response =
          { statusCode := 200
            body := toBase64 existing.Body
            isBase64Encoded := true
            headers :=
              { contentType := existing.ContentType
                cacheControl := some "public, max-age=86400"
                age := none } }) ∧
      (responseType event.queryStringParameters ≠ some "file" →
        (handler env store event).response.body = "\x7b\"resized\":false,\"exists\":true\x7d" ∧
          (handler env store event).response.headers.contentType = "application/json") := by
  subst ho
  rw [handler_of_requestKey env store event path hp,
    handleKey_hit env store path _ existing hv hhit]
  refine ⟨?_, rfl, rfl, ?_, ?_⟩
  · simp only [existingImageResponse]; split <;> rfl
  · intro hf
    simp only [existingImageResponse, RESPONSE_TYPES_FILE, hf, if_true, DEFAULT_CACHE_HEADER]
  · intro hf
    simp [existingImageResponse, RESPONSE_TYPES_FILE, hf]

theorem C4_cache_hit_serves_stored_blob_witness :
    requestKey (sampleEvent "photos/dog.png" "50x50" "file") = some "photos/dog.png" ∧
      resizeOptions (sampleEvent "photos/dog.png" "50x50" "file").queryStringParameters = "50x50" ∧
      action "50x50" ∈ FIT_OPTIONS ∧
      sampleStore "photos/50x50/dog.png" = some ⟨[9], "text/html", none⟩ ∧
      (handler sampleEnv sampleStore (sampleEvent "photos/dog.png" "50x50" "file")).response =
        { statusCode := 200
          body := "CQ=="
          isBase64Encoded := true
          headers :=
            { contentType := "text/html"
              cacheControl := some "public, max-age=86400"
              age := none } } ∧
      (handler sampleEnv sampleStore (sampleEvent "photos/dog.png" "50x50" "file")).trace =
        [Effect.getObject "photos/50x50/dog.png"] :=
  have h := C4_cache_hit_serves_stored_blob sampleEnv sampleStore
    (sampleEvent "photos/dog.png" "50x50" "file") "photos/dog.png" "50x50"
    ⟨[9], "text/html", none⟩ (by decide) (by decide) (by decide) (by decide)
  ⟨by decide, by decide, by decide, by decide, h.2.2.2.1 (by decide), h.2.1⟩

/-- C6: for every request that passes fit validation and misses the cache, if the original
exists with content type image/bmp, then whatever the size tokens, the fit and the response
mode, the handler returns 200 with the base64 text of the original bytes as body,
Content-Type image/bmp, Cache-Control `public, max-age=86400` and Age 0; its only calls are
the two reads (no pipeline call, no store write) and the store is unchanged. -/
theorem C6_unsupported_format_passthrough (env : Env) (store : Store) (event : Event)
    (path options : String) (orig : S3Object)
    (hp : requestKey event = some path)
    (ho : resizeOptions event.queryStringParameters = options)
    (hv : action options = "" ∨ action options ∈ FIT_OPTIONS)
    (hmiss : store (if options ≠ "" then resizedKey path options else path) = none)
    (horig : store path = some orig)
    (hbmp : orig.ContentType = "image/bmp") :
    (handler env store event).response =
        { statusCode := 200
          body := toBase64 orig.Body
          isBase64Encoded := true
          headers :=
            { contentType := "image/bmp"
              cacheControl := some "public, max-age=86400"
              age := some 0 } } ∧
      (handler env store event).trace =
        [Effect.getObject (if options ≠ "" then resizedKey path options else path),
          Effect.getObject path] ∧
      (handler env store event).store = store := by
  subst ho
  have hct : orig.ContentType ∈ ALLOWED_MIME_TYPES := by rw [hbmp]; decide
  have hun : orig.ContentType ∈ UNSUPPORTED_SHARP_MIME_TYPES := by rw [hbmp]; decide
  rw [handler_of_requestKey env store event path hp, handleKey_miss env store path _ hv hmiss,
    generate_passthrough env store path _ _ orig horig hct hun]
  refine ⟨?_, rfl, rfl⟩
  simp only [passthroughResponse, hbmp, DEFAULT_CACHE_HEADER]

theorem C6_unsupported_format_passthrough_witness :
    requestKey (sampleEvent "cat.bmp" "autox300_fill" "json") = some "cat.bmp" ∧
      resizeOptions (sampleEvent "cat.bmp" "autox300_fill" "json").queryStringParameters
        = "autox300_fill" ∧
      action "autox300_fill" ∈ FIT_OPTIONS ∧
      sampleStore "autox300_fill/cat.bmp" = none ∧
      sampleStore "cat.bmp" = some ⟨[66, 77, 0], "image/bmp", none⟩ ∧
      (handler sampleEnv sampleStore (sampleEvent "cat.bmp" "autox300_fill" "json")).response =
        { statusCode := 200
          body := "Qk0A"
          isBase64Encoded := true
          headers :=
            { contentType := "image/bmp"
              cacheControl := some "public, max-age=86400"
              age := some 0 } } ∧
      (handler sampleEnv sampleStore (sampleEvent "cat.bmp" "autox300_fill" "json")).trace =
        [Effect.getObject "autox300_fill/cat.bmp", Effect.getObject "cat.bmp"] ∧
      (handler sampleEnv sampleStore (sampleEvent "cat.bmp" "autox300_fill" "json")).store
        = sampleStore :=
  ⟨by decide, by decide, by decide, by decide, by decide,
    C6_unsupported_format_passthrough sampleEnv sampleStore
      (sampleEvent "cat.bmp" "autox300_fill" "json") "cat.bmp" "autox300_fill"
      ⟨[66, 77, 0], "image/bmp", none⟩ (by decide) (by decide) (by decide) (by decide)
      (by decide) (by decide)⟩

/-- C3: for every request that passes fit validation and whose probe key is absent from the
store, the status is 404 exactly when the original key is absent (then with Content-Type
text/plain); when the original is present the status is 400 exactly when its content type is
outside the allowed set (then with Content-Type text/plain and a body listing the six allowed
types); and when the content type is allowed the status is 200 exactly when the type is
image/bmp or the pipeline call and the store write of this request both succeed. -/
theorem C3_failure_path_precedence (env : Env) (store : Store) (event : Event)
    (path options : String)
    (hp : requestKey event = some path)
    (ho : resizeOptions event.queryStringParameters = options)
    (hv : action options = "" ∨ action options ∈ FIT_OPTIONS)
    (hmiss : store (if options ≠ "" then resizedKey path options else path) = none) :
    ((handler env store event).response.statusCode = 404 ↔ store path = none) ∧
      (store path = none →
        (handler env store event).response.headers.contentType = "text/plain") ∧
      (∀ orig, store path = some orig →
        ((handler env store event).response.statusCode = 400 ↔
          orig.ContentType ∉ ALLOWED_MIME_TYPES) ∧
        (orig.ContentType ∉ ALLOWED_MIME_TYPES →
          (handler env store event).response.headers.contentType = "text/plain" ∧
          (handler env store event).response.body =
            "Unsupported MIME type: " ++ orig.ContentType ++ ". Supported types: " ++
              "image/jpeg, image/gif, image/png, image/svg+xml, image/tiff, image/bmp") ∧
        (orig.ContentType ∈ ALLOWED_MIME_TYPES →
          ((handler env store event).response.statusCode = 200 ↔
            (orig.ContentType = "image/bmp" ∨
              ∃ result,
                env.sharp orig.Body (width options) (height options) (fit options) = some result ∧
                env.putAccepted (resizedKey path options)
                  ⟨result, orig.ContentType, some "public, max-age=86400"⟩ = true)))) := by
  subst ho
  rw [handler_of_requestKey env store event path hp, handleKey_miss env store path _ hv hmiss]
  cases horig : store path with
  | none =>
    rw [generate_notFound env store path _ _ horig]
    refine ⟨⟨fun _ => rfl, fun _ => rfl⟩, fun _ => rfl, ?_⟩
    intro orig h
    cases h
  | some orig =>
    by_cases hct : orig.ContentType ∈ ALLOWED_MIME_TYPES
    · by_cases hun : orig.ContentType ∈ UNSUPPORTED_SHARP_MIME_TYPES
      · rw [generate_passthrough env store path _ _ orig horig hct hun]
        have hbmp : orig.ContentType = "image/bmp" := by
          simpa [UNSUPPORTED_SHARP_MIME_TYPES] using hun
        refine ⟨⟨fun h => ?_, fun h => ?_⟩, fun h => ?_, ?_⟩
        · simp [passthroughResponse] at h
        · cases h
        · cases h
        · intro orig' h'
          cases h'
          refine ⟨⟨fun h => ?_, fun h => absurd hct h⟩, fun h => absurd hct h, fun _ => ?_⟩
          · simp [passthroughResponse] at h
          · exact ⟨fun _ => Or.inl hbmp, fun _ => rfl⟩
      · have hnb : orig.ContentType ≠ "image/bmp" := by
          simpa [UNSUPPORTED_SHARP_MIME_TYPES] using hun
        rw [generate_transform env store path _ _ orig horig hct hun]
        cases hs : env.sharp orig.Body (width (resizeOptions event.queryStringParameters))
            (height (resizeOptions event.queryStringParameters))
            (fit (resizeOptions event.queryStringParameters)) with
        | none =>
          simp only []
          refine ⟨⟨fun h => ?_, fun h => ?_⟩, fun h => ?_, ?_⟩
          · simp [internalServerError] at h
          · cases h
          · cases h
          · intro orig' h'
            cases h'
            refine ⟨⟨fun h => ?_, fun h => absurd hct h⟩, fun h => absurd hct h, fun _ => ?_⟩
            · simp [internalServerError] at h
            · constructor
              · intro h
                simp [internalServerError] at h
              · rintro (h | ⟨result, h, _⟩)
                · exact absurd h hnb
                · rw [hs] at h; cases h
        | some result =>
          simp only []
          by_cases hput : env.putAccepted
              (resizedKey path (resizeOptions event.queryStringParameters))
              (variantObject orig.ContentType result) = true
          · rw [if_pos hput]
            refine ⟨⟨fun h => ?_, fun h => ?_⟩, fun h => ?_, ?_⟩
            · simp [generatedResponse_statusCode] at h
            · cases h
            · cases h
            · intro orig' h'
              cases h'
              refine ⟨⟨fun h => ?_, fun h => absurd hct h⟩, fun h => absurd hct h, fun _ => ?_⟩
              · simp [generatedResponse_statusCode] at h
              · exact ⟨fun _ => Or.inr ⟨result, hs, hput⟩,
                  fun _ => generatedResponse_statusCode _ _ _⟩
          · rw [if_neg hput]
            refine ⟨⟨fun h => ?_, fun h => ?_⟩, fun h => ?_, ?_⟩
            · simp [internalServerError] at h
            · cases h
            · cases h
            · intro orig' h'
              cases h'
              refine ⟨⟨fun h => ?_, fun h => absurd hct h⟩, fun h => absurd hct h, fun _ => ?_⟩
              · simp [internalServerError] at h
              · constructor
                · intro h
                  simp [internalServerError] at h
                · rintro (h | ⟨result', h, hacc⟩)
                  · exact absurd h hnb
                  · rw [hs] at h
                    cases h
                    exact absurd hacc hput
    · rw [generate_unsupportedMime env store path _ _ orig horig hct]
      refine ⟨⟨fun h => ?_, fun h => ?_⟩, fun h => ?_, ?_⟩
      · simp [unsupportedMimeResponse] at h
      · cases h
      · cases h
      · intro orig' h'
        cases h'
        refine ⟨⟨fun _ => hct, fun _ => rfl⟩, fun _ => ⟨rfl, ?_⟩, fun h => absurd h hct⟩
        simp only [unsupportedMimeResponse, jsJoin_ALLOWED_MIME_TYPES]

theorem C3_failure_path_precedence_witness :
    requestKey (sampleEvent "notes/page.html" "10x10" "json") = some "notes/page.html" ∧
      resizeOptions (sampleEvent "notes/page.html" "10x10" "json").queryStringParameters
        = "10x10" ∧
      action "10x10" ∈ FIT_OPTIONS ∧
      sampleStore "notes/10x10/page.html" = none ∧
      sampleStore "notes/page.html" = some ⟨[60, 112, 62], "text/html", none⟩ ∧
      (handler sampleEnv sampleStore
        (sampleEvent "notes/page.html" "10x10" "json")).response.statusCode = 400 ∧
      (handler sampleEnv sampleStore (sampleEvent "notes/page.html" "10x10" "json")).response.body =
        "Unsupported MIME type: text/html. Supported types: " ++
          "image/jpeg, image/gif, image/png, image/svg+xml, image/tiff, image/bmp" :=
  have h := (C3_failure_path_precedence sampleEnv sampleStore
    (sampleEvent "notes/page.html" "10x10" "json") "notes/page.html" "10x10"
    (by decide) (by decide) (by decide) (by decide)).2.2
      ⟨[60, 112, 62], "text/html", none⟩ (by decide)
  ⟨by decide, by decide, by decide, by decide, by decide, h.1.2 (by decide),
    (h.2.1 (by decide)).2⟩

/-- C7: when the handler freshly generates a variant (fit validation passed, probe key
absent, original present with an allowed content type other than image/bmp, pipeline call
and store write both succeeding), the store afterwards holds at the derived key the bytes
the pipeline returned with the content type of the original, and agrees with the store
before on every other key; when the fit action is unknown, or the probe key is present, or
the original is absent, or its content type is not allowed or is image/bmp, the store
afterwards equals the store before. -/
theorem C7_store_effect (env : Env) (store : Store) (event : Event) (path options : String)
    (hp : requestKey event = some path)
    (ho : resizeOptions event.queryStringParameters = options) :
    (∀ orig result,
      (action options = "" ∨ action options ∈ FIT_OPTIONS) →
      store (if options ≠ "" then resizedKey path options else path) = none →
      store path = some orig →
      orig.ContentType ∈ ALLOWED_MIME_TYPES →
      orig.ContentType ∉ UNSUPPORTED_SHARP_MIME_TYPES →
      env.sharp orig.Body (width options) (height options) (fit options) = some result →
      env.putAccepted (resizedKey path options)
        ⟨result, orig.ContentType, some "public, max-age=86400"⟩ = true →
      (handler env store event).store (resizedKey path options) =
          some ⟨result, orig.ContentType, some "public, max-age=86400"⟩ ∧
        ∀ k, k ≠ resizedKey path options → (handler env store event).store k = store k) ∧
      (((action options ≠ "" ∧ action options ∉ FIT_OPTIONS) ∨
          (∃ existing,
            store (if options ≠ "" then resizedKey path options else path) = some existing) ∨
          store path = none ∨
          (∃ orig, store path = some orig ∧
            (orig.ContentType ∉ ALLOWED_MIME_TYPES ∨
              orig.ContentType ∈ UNSUPPORTED_SHARP_MIME_TYPES))) →
        (handler env store event).store = store) := by
  subst ho
  constructor
  · intro orig result hv hmiss horig hct hun hs hput
    rw [handler_of_requestKey env store event path hp, handleKey_miss env store path _ hv hmiss,
      generate_transform env store path _ _ orig horig hct hun]
    have hput' : env.putAccepted (resizedKey path (resizeOptions event.queryStringParameters))
        (variantObject orig.ContentType result) = true := hput
    simp only [hs]
    rw [if_pos hput']
    constructor
    · simp [Store.put, variantObject, DEFAULT_CACHE_HEADER]
    · intro k hk
      simp [Store.put, hk]
  · intro hcases
    have hout := handler_outcome env store event
    generalize handler env store event = r at hout ⊢
    cases hout with
    | noPath _ => rfl
    | unknownFit _ _ _ _ => rfl
    | cacheHit _ _ _ _ _ => rfl
    | notFound _ _ _ _ _ => rfl
    | unsupportedMime _ _ _ _ _ _ _ => rfl
    | passthrough _ _ _ _ _ _ _ _ => rfl
    | sharpThrows _ _ _ _ _ _ _ _ _ => rfl
    | putThrows _ _ _ _ _ _ _ _ _ _ _ => rfl
    | generated path' orig result hp' hv hmiss horig hct hun hs hput =>
      exfalso
      rw [hp] at hp'
      cases hp'
      rcases hcases with ⟨hne, hfit⟩ | ⟨existing, hhit⟩ | hnone | ⟨orig', horig', hbad⟩
      · rcases hv with h | h
        · exact hne h
        · exact hfit h
      · have : store (probeKey path (resizeOptions event.queryStringParameters))
            = some existing := hhit
        rw [hmiss] at this
        cases this
      · rw [horig] at hnone
        cases hnone
      · rw [horig] at horig'
        cases horig'
        rcases hbad with h | h
        · exact h hct
        · exact hun h

theorem C7_store_effect_witness :
    requestKey (sampleEvent "photos/cat.jpg" "200x200_cover" "file") = some "photos/cat.jpg" ∧
      resizeOptions (sampleEvent "photos/cat.jpg" "200x200_cover" "file").queryStringParameters
        = "200x200_cover" ∧
      sampleStore "photos/200x200_cover/cat.jpg" = none ∧
      resizedKey "photos/cat.jpg" "200x200_cover" = "photos/200x200_cover/cat.jpg" ∧
      (handler sampleEnv sampleStore
          (sampleEvent "photos/cat.jpg" "200x200_cover" "file")).store
          (resizedKey "photos/cat.jpg" "200x200_cover") =
        some ⟨[1], "image/jpeg", some "public, max-age=86400"⟩ ∧
      (∀ k, k ≠ resizedKey "photos/cat.jpg" "200x200_cover" →
        (handler sampleEnv sampleStore
          (sampleEvent "photos/cat.jpg" "200x200_cover" "file")).store k = sampleStore k) :=
  ⟨by decide, by decide, by decide, by decide,
    (C7_store_effect sampleEnv sampleStore (sampleEvent "photos/cat.jpg" "200x200_cover" "file")
      "photos/cat.jpg" "200x200_cover" (by decide) (by decide)).1
      ⟨[1, 2, 3, 4], "image/jpeg", none⟩ [1] (by decide) (by decide) (by decide) (by decide)
      (by decide) (by decide) (by decide)⟩

/-- C5 fails as stated: a bmp original requested with options `100x100` is answered 200 by
the passthrough, which stores nothing, so the same request repeated in json mode misses the
cache again and is answered with the base64 text of the original, not with the cache-hit
descriptor. -/
theorem C5_counterexample_passthrough_not_cached :
    (handler sampleEnv sampleStore (sampleEvent "cat.bmp" "100x100" "json")).response.statusCode
        = 200 ∧
      (handler sampleEnv
        (handler sampleEnv sampleStore (sampleEvent "cat.bmp" "100x100" "json")).store
        (sampleEvent "cat.bmp" "100x100" "json")).response.body = "Qk0A" ∧
      (handler sampleEnv
        (handler sampleEnv sampleStore (sampleEvent "cat.bmp" "100x100" "json")).store
        (sampleEvent "cat.bmp" "100x100" "json")).response.body
          ≠ "\x7b\"resized\":false,\"exists\":true\x7d" := by
  decide

/-- C5, amended: for every store, path and option string, if a request returns status 200
and was not answered by the unsupported-format passthrough (probe key absent and original of
type image/bmp), then the same path and options requested again in a response mode other
than `file`, against the store left by the first request, is answered as a cache hit: a
single read of the probe key and the descriptor with resized false and exists true. -/
theorem C5_idempotent_caching (env₁ env₂ : Env) (store : Store) (event₁ event₂ : Event)
    (path options : String)
    (hp₁ : requestKey event₁ = some path)
    (ho₁ : resizeOptions event₁.queryStringParameters = options)
    (hp₂ : requestKey event₂ = some path)
    (ho₂ : resizeOptions event₂.queryStringParameters = options)
    (hjson : responseType event₂.queryStringParameters ≠ some "file")
    (h200 : (handler env₁ store event₁).response.statusCode = 200)
    (hnp : ¬ (store (if options ≠ "" then resizedKey path options else path) = none ∧
      ∃ orig, store path = some orig ∧ orig.ContentType = "image/bmp")) :
    (handler env₂ (handler env₁ store event₁).store event₂).response =
        { statusCode := 200
          body := "\x7b\"resized\":false,\"exists\":true\x7d"
          isBase64Encoded := false
          headers :=
            { contentType := "application/json"
              cacheControl := some "private, nocache"
              age := none } } ∧
      (handler env₂ (handler env₁ store event₁).store event₂).trace =
        [Effect.getObject (if options ≠ "" then resizedKey path options else path)] := by
  have hdesc : existingImageResponse (responseType event₂.queryStringParameters) =
      fun _ =>
        { statusCode := 200
          body := "\x7b\"resized\":false,\"exists\":true\x7d"
          isBase64Encoded := false
          headers :=
            { contentType := "application/json"
              cacheControl := some "private, nocache"
              age := none } } := by
    funext existing
    simp [existingImageResponse, RESPONSE_TYPES_FILE, hjson]
  have hout := handler_outcome env₁ store event₁
  generalize handler env₁ store event₁ = r at hout h200 ⊢
  subst ho₁
  cases hout with
  | noPath _ => simp [internalServerError] at h200
  | unknownFit _ _ _ _ => simp [unknownFitResponse] at h200
  | notFound _ _ _ _ _ => simp [notFoundResponse] at h200
  | unsupportedMime _ _ _ _ _ _ _ => simp [unsupportedMimeResponse] at h200
  | sharpThrows _ _ _ _ _ _ _ _ _ => simp [internalServerError] at h200
  | putThrows _ _ _ _ _ _ _ _ _ _ _ => simp [internalServerError] at h200
  | passthrough path' orig hp' hv hmiss horig hct hun =>
    exfalso
    rw [hp₁] at hp'
    cases hp'
    exact hnp ⟨hmiss, orig, horig, by simpa [UNSUPPORTED_SHARP_MIME_TYPES] using hun⟩
  | cacheHit path' existing hp' hv hhit =>
    rw [hp₁] at hp'
    cases hp'
    have hv₂ : action (resizeOptions event₂.queryStringParameters) = "" ∨
        action (resizeOptions event₂.queryStringParameters) ∈ FIT_OPTIONS := by
      rw [ho₂]; exact hv
    have hhit₂ : store (probeKey path (resizeOptions event₂.queryStringParameters)) =
        some existing := by
      rw [ho₂]; exact hhit
    dsimp only
    rw [handler_of_requestKey env₂ store event₂ path hp₂,
      handleKey_hit env₂ store path _ existing hv₂ hhit₂, hdesc]
    exact ⟨rfl, by rw [ho₂]; rfl⟩
  | generated path' orig result hp' hv hmiss horig hct hun hs hput =>
    rw [hp₁] at hp'
    cases hp'
    have hopt : resizeOptions event₁.queryStringParameters ≠ "" := by
      intro he
      rw [he] at hmiss
      have hmiss' : store path = none := hmiss
      rw [horig] at hmiss'
      cases hmiss'
    have hprobe : probeKey path (resizeOptions event₁.queryStringParameters) =
        resizedKey path (resizeOptions event₁.queryStringParameters) := by
      simp [probeKey, hopt]
    have hhit : (store.put (resizedKey path (resizeOptions event₁.queryStringParameters))
        (variantObject orig.ContentType result))
        (probeKey path (resizeOptions event₁.queryStringParameters)) =
          some (variantObject orig.ContentType result) := by
      simp [Store.put, hprobe]
    have hv₂ : action (resizeOptions event₂.queryStringParameters) = "" ∨
        action (resizeOptions event₂.queryStringParameters) ∈ FIT_OPTIONS := by
      rw [ho₂]; exact hv
    have hhit₂ : (store.put (resizedKey path (resizeOptions event₁.queryStringParameters))
        (variantObject orig.ContentType result))
        (probeKey path (resizeOptions event₂.queryStringParameters)) =
          some (variantObject orig.ContentType result) := by
      rw [ho₂]; exact hhit
    dsimp only
    rw [handler_of_requestKey env₂ _ event₂ path hp₂,
      handleKey_hit env₂ _ path _ _ hv₂ hhit₂, hdesc]
    exact ⟨rfl, by rw [ho₂, hprobe]; simp [hopt]⟩

theorem C5_idempotent_caching_witness :
    requestKey (sampleEvent "photos/cat.jpg" "200x200_cover" "file") = some "photos/cat.jpg" ∧
      requestKey (sampleEvent "photos/cat.jpg" "200x200_cover" "json") = some "photos/cat.jpg" ∧
      (handler sampleEnv sampleStore
        (sampleEvent "photos/cat.jpg" "200x200_cover" "file")).response.statusCode = 200 ∧
      sampleStore "photos/200x200_cover/cat.jpg" = none ∧
      (handler sampleEnv
          (handler sampleEnv sampleStore
            (sampleEvent "photos/cat.jpg" "200x200_cover" "file")).store
          (sampleEvent "photos/cat.jpg" "200x200_cover" "json")).response =
        { statusCode := 200
          body := "\x7b\"resized\":false,\"exists\":true\x7d"
          isBase64Encoded := false
          headers :=
            { contentType := "application/json"
              cacheControl := some "private, nocache"
              age := none } } :=
  ⟨by decide, by decide, by decide, by decide,
    (C5_idempotent_caching sampleEnv sampleEnv sampleStore
      (sampleEvent "photos/cat.jpg" "200x200_cover" "file")
      (sampleEvent "photos/cat.jpg" "200x200_cover" "json") "photos/cat.jpg" "200x200_cover"
      (by decide) (by decide) (by decide) (by decide) (by decide) (by decide) (by decide)).1⟩

/-- C10 fails as stated: an event without path parameters is answered 500, an error response
that is not the unknown-fit 400, and that response carries no Cache-Control header. -/
theorem C10_counterexample_500_without_cache_control :
    (handler sampleEnv sampleStore ⟨none, none⟩).response.statusCode = 500 ∧
      (handler sampleEnv sampleStore ⟨none, none⟩).response.headers.contentType = "text/plain" ∧
      (handler sampleEnv sampleStore ⟨none, none⟩).response.headers.cacheControl = none ∧
      (handler sampleEnv sampleStore ⟨none, none⟩).response.headers.cacheControl
        ≠ some "private, nocache" := by
  decide

/-- C10, amended: every response of the handler with a status other than 200 has status 400,
404 or 500 and Content-Type text/plain; the 404 and the unsupported-media-type 400 carry
Cache-Control `private, nocache`; the unknown-fit 400 and the 500 carry no Cache-Control
header. -/
theorem C10_error_response_shaping (env : Env) (store : Store) (event : Event)
    (options : String)
    (ho : resizeOptions event.queryStringParameters = options)
    (herr : (handler env store event).response.statusCode ≠ 200) :
    ((handler env store event).response.statusCode = 400 ∨
        (handler env store event).response.statusCode = 404 ∨
        (handler env store event).response.statusCode = 500) ∧
      (handler env store event).response.headers.contentType = "text/plain" ∧
      ((handler env store event).response.statusCode = 404 →
        (handler env store event).response.headers.cacheControl = some "private, nocache") ∧
      ((handler env store event).response.statusCode = 400 →
        ¬ (action options ≠ "" ∧ action options ∉ FIT_OPTIONS) →
        (handler env store event).response.headers.cacheControl = some "private, nocache") ∧
      ((handler env store event).response.statusCode = 400 →
        (action options ≠ "" ∧ action options ∉ FIT_OPTIONS) →
        (handler env store event).response.headers.cacheControl = none) ∧
      ((handler env store event).response.statusCode = 500 →
        (handler env store event).response.headers.cacheControl = none) := by
  have hout := handler_outcome env store event
  generalize handler env store event = r at hout herr ⊢
  subst ho
  cases hout with
  | noPath _ => simp [internalServerError]
  | unknownFit _ _ hne hfit => simp [unknownFitResponse, hne, hfit]
  | cacheHit _ existing _ _ _ =>
    exact absurd (existingImageResponse_statusCode _ existing) herr
  | notFound _ _ _ _ _ => simp [notFoundResponse]
  | unsupportedMime _ _ _ hv _ _ _ =>
    refine ⟨Or.inl rfl, rfl, fun _ => rfl, fun _ _ => rfl, fun _ hbad => ?_, fun h => ?_⟩
    · rcases hv with h | h
      · exact absurd h hbad.1
      · exact absurd h hbad.2
    · simp [unsupportedMimeResponse] at h
  | passthrough _ _ _ _ _ _ _ _ => simp [passthroughResponse] at herr
  | sharpThrows _ _ _ _ _ _ _ _ _ => simp [internalServerError]
  | putThrows _ _ _ _ _ _ _ _ _ _ _ => simp [internalServerError]
  | generated _ orig result _ _ _ _ _ _ _ _ =>
    exact absurd (generatedResponse_statusCode _ orig.ContentType result) herr

theorem C10_error_response_shaping_witness :
    resizeOptions (sampleEvent "photos/none.jpg" "10x10" "file").queryStringParameters
        = "10x10" ∧
      (handler sampleEnv sampleStore
        (sampleEvent "photos/none.jpg" "10x10" "file")).response.statusCode = 404 ∧
      (handler sampleEnv sampleStore
        (sampleEvent "photos/none.jpg" "10x10" "file")).response.headers.contentType
          = "text/plain" ∧
      (handler sampleEnv sampleStore
        (sampleEvent "photos/none.jpg" "10x10" "file")).response.headers.cacheControl
          = some "private, nocache" :=
  have h := C10_error_response_shaping sampleEnv sampleStore
    (sampleEvent "photos/none.jpg" "10x10" "file") "10x10" (by decide) (by decide)
  ⟨by decide, by decide, h.2.1, h.2.2.1 (by decide)⟩

/-- C1: for every request path and every non-empty raw option string, the key the source
computes equals the key the specification words (the path split at its last `/` into
subfolder and filename, then the non-empty ones of subfolder and option string joined with
`/`, then `/` and the filename); when fit validation passes the first call of the handler is
the read of that key; every store write of the handler is at that key, and the store
afterwards differs from the store before at no other key.  The two examples of the claim
hold: `photos/cat.jpg` with `200x200_cover` gives `photos/200x200_cover/cat.jpg`, and
`cat.jpg` with `200x200` gives `200x200/cat.jpg`. -/
theorem C1_key_derivation (env : Env) (store : Store) (event : Event) (path options : String)
    (hp : requestKey event = some path)
    (ho : resizeOptions event.queryStringParameters = options)
    (hne : options ≠ "") :
    resizedKey path options = derivedKeySpec path options ∧
      ((action options = "" ∨ action options ∈ FIT_OPTIONS) →
        (handler env store event).trace.head? =
          some (Effect.getObject (derivedKeySpec path options))) ∧
      (∀ k obj, Effect.putObject k obj ∈ (handler env store event).trace →
        k = derivedKeySpec path options) ∧
      (∀ k, (handler env store event).store k ≠ store k → k = derivedKeySpec path options) ∧
      resizedKey "photos/cat.jpg" "200x200_cover" = "photos/200x200_cover/cat.jpg" ∧
      resizedKey "cat.jpg" "200x200" = "200x200/cat.jpg" := by
  subst ho
  refine ⟨resizedKey_eq_derivedKeySpec _ _, ?_, ?_, ?_, by decide, by decide⟩
  all_goals rw [← resizedKey_eq_derivedKeySpec]
  · intro hv
    have hout := handler_outcome env store event
    generalize handler env store event = r at hout ⊢
    cases hout with
    | noPath h => rw [hp] at h; cases h
    | unknownFit _ _ h1 h2 =>
      rcases hv with h | h
      · exact absurd h h1
      · exact absurd h h2
    | cacheHit path' _ h _ _ =>
      rw [hp] at h; cases h
      simp [probeKey_of_ne_empty _ _ hne]
    | notFound path' h _ _ _ =>
      rw [hp] at h; cases h
      simp [probeKey_of_ne_empty _ _ hne]
    | unsupportedMime path' _ h _ _ _ _ =>
      rw [hp] at h; cases h
      simp [probeKey_of_ne_empty _ _ hne]
    | passthrough path' _ h _ _ _ _ _ =>
      rw [hp] at h; cases h
      simp [probeKey_of_ne_empty _ _ hne]
    | sharpThrows path' _ h _ _ _ _ _ _ =>
      rw [hp] at h; cases h
      simp [probeKey_of_ne_empty _ _ hne]
    | putThrows path' _ _ h _ _ _ _ _ _ _ =>
      rw [hp] at h; cases h
      simp [probeKey_of_ne_empty _ _ hne]
    | generated path' _ _ h _ _ _ _ _ _ _ =>
      rw [hp] at h; cases h
      simp [probeKey_of_ne_empty _ _ hne]
  · intro k obj hmem
    have hout := handler_outcome env store event
    generalize handler env store event = r at hout hmem
    cases hout with
    | noPath _ => simp at hmem
    | unknownFit _ _ _ _ => simp at hmem
    | cacheHit _ _ _ _ _ => simp at hmem
    | notFound _ _ _ _ _ => simp at hmem
    | unsupportedMime _ _ _ _ _ _ _ => simp at hmem
    | passthrough _ _ _ _ _ _ _ _ => simp at hmem
    | sharpThrows _ _ _ _ _ _ _ _ _ => simp at hmem
    | putThrows path' _ _ h _ _ _ _ _ _ _ =>
      rw [hp] at h; cases h
      simp at hmem
      exact hmem.1
    | generated path' _ _ h _ _ _ _ _ _ _ =>
      rw [hp] at h; cases h
      simp at hmem
      exact hmem.1
  · intro k hk
    have hout := handler_outcome env store event
    generalize handler env store event = r at hout hk
    cases hout with
    | noPath _ => exact absurd rfl hk
    | unknownFit _ _ _ _ => exact absurd rfl hk
    | cacheHit _ _ _ _ _ => exact absurd rfl hk
    | notFound _ _ _ _ _ => exact absurd rfl hk
    | unsupportedMime _ _ _ _ _ _ _ => exact absurd rfl hk
    | passthrough _ _ _ _ _ _ _ _ => exact absurd rfl hk
    | sharpThrows _ _ _ _ _ _ _ _ _ => exact absurd rfl hk
    | putThrows _ _ _ _ _ _ _ _ _ _ _ => exact absurd rfl hk
    | generated path' _ _ h _ _ _ _ _ _ _ =>
      rw [hp] at h; cases h
      exact Store.put_ne_imp_eq _ _ _ _ hk

theorem C1_key_derivation_witness :
    requestKey (sampleEvent "photos/cat.jpg" "200x200_cover" "file") = some "photos/cat.jpg" ∧
      resizeOptions (sampleEvent "photos/cat.jpg" "200x200_cover" "file").queryStringParameters
        = "200x200_cover" ∧
      derivedKeySpec "photos/cat.jpg" "200x200_cover" = "photos/200x200_cover/cat.jpg" ∧
      resizedKey "photos/cat.jpg" "200x200_cover" =
        derivedKeySpec "photos/cat.jpg" "200x200_cover" ∧
      (handler sampleEnv sampleStore
          (sampleEvent "photos/cat.jpg" "200x200_cover" "file")).trace.head? =
        some (Effect.getObject (derivedKeySpec "photos/cat.jpg" "200x200_cover")) ∧
      Effect.putObject "photos/200x200_cover/cat.jpg"
          ⟨[1], "image/jpeg", some "public, max-age=86400"⟩ ∈
        (handler sampleEnv sampleStore
          (sampleEvent "photos/cat.jpg" "200x200_cover" "file")).trace :=
  have h := C1_key_derivation sampleEnv sampleStore
    (sampleEvent "photos/cat.jpg" "200x200_cover" "file") "photos/cat.jpg" "200x200_cover"
    (by decide) (by decide) (by decide)
  ⟨by decide, by decide, by decide, h.1, h.2.1 (by decide), by decide⟩

/-- C8 fails as stated: for the path `cat.jpg` with no options the derived key the handler
computes is `/cat.jpg`, which is not the original key. -/
theorem C8_counterexample_path_without_slash :
    resizeOptions none = "" ∧
      resizeOptions (some [("response", "file")]) = "" ∧
      resizedKey "cat.jpg" "" = "/cat.jpg" ∧
      resizedKey "cat.jpg" "" ≠ "cat.jpg" := by
  decide

/-- C8, amended: for every request path, when the raw option string is empty or absent, the
key the handler probes is the original key, the handler writes nothing (no store write among
its calls, store unchanged), and the derived key it computes equals the original key when
the path contains a `/`; for a path with no `/`, such as `cat.jpg`, the computed derived key
is `/` followed by the path. -/
theorem C8_no_options_probe_is_original (env : Env) (store : Store) (event : Event)
    (path : String)
    (hp : requestKey event = some path)
    (ho : resizeOptions event.queryStringParameters = "") :
    probeKey path (resizeOptions event.queryStringParameters) = path ∧
      (handler env store event).trace.head? = some (Effect.getObject path) ∧
      (∀ k obj, Effect.putObject k obj ∉ (handler env store event).trace) ∧
      (handler env store event).store = store ∧
      ('/' ∈ path.data →
        resizedKey path (resizeOptions event.queryStringParameters) = path) ∧
      ('/' ∉ path.data →
        resizedKey path (resizeOptions event.queryStringParameters) = "/" ++ path) := by
  have hprobe : probeKey path "" = path := by simp [probeKey]
  have hv : action (resizeOptions event.queryStringParameters) = "" ∨
      action (resizeOptions event.queryStringParameters) ∈ FIT_OPTIONS := by
    rw [ho]; decide
  rw [handler_of_requestKey env store event path hp, handleKey_valid env store path _ hv, ho,
    hprobe]
  refine ⟨rfl, ?_, ?_, ?_, (resizedKey_empty_options path).1, (resizedKey_empty_options path).2⟩
  all_goals
    cases hs : store path with
    | some existing => simp [getResource, hs]
    | none => simp [getResource, hs, generate_notFound env store path _ _ hs, hprobe]

theorem C8_no_options_probe_is_original_witness :
    requestKey ⟨some [("proxy", "photos/cat.jpg")], none⟩ = some "photos/cat.jpg" ∧
      resizeOptions (none : Option Params) = "" ∧
      (handler sampleEnv sampleStore ⟨some [("proxy", "photos/cat.jpg")], none⟩).trace.head? =
        some (Effect.getObject "photos/cat.jpg") ∧
      (handler sampleEnv sampleStore ⟨some [("proxy", "photos/cat.jpg")], none⟩).store
        = sampleStore ∧
      resizedKey "photos/cat.jpg" "" = "photos/cat.jpg" :=
  have h := C8_no_options_probe_is_original sampleEnv sampleStore
    ⟨some [("proxy", "photos/cat.jpg")], none⟩ "photos/cat.jpg" (by decide) (by decide)
  ⟨by decide, by decide, h.2.1, h.2.2.2.1, h.2.2.2.2.1 (by decide)⟩

end ImageResizer
